import Mathlib

set_option autoImplicit false

/-!
Shallow embedding of `src/src/components/UpdateNotification.tsx`.

The component is a small event-driven state machine.  We model the React
hook state (`updateInfo`, `isVisible`, `isClosing`, `updateState`,
`downloadProgress`, the `downloadStarted` ref) together with the
observable side channels (the parent `onClose` callback, `showToast`,
`console.warn`/`console.error`, the `relaunch` primitive) and the two
`setTimeout` calls (entrance delay 100 ms, closing delay 400 ms), which
are kept as lists of pending timer delays fired by separate events.

Execution is driven by events: resolution of the in-flight
`check_for_updates` call (with an `Except` result, since the bridge call
may throw), expiry of one of the scheduled timers, and the user actions
that the render makes available (close, retry, restart).  The host
environment predicate `isTauri()` is a fixed boolean parameter of a run.
-/

namespace UpdateNotification

/-- The `UpdateInfo` interface (lines 9-15 of the source). -/
structure UpdateInfo where
  has_update : Bool
  latest_version : String
  current_version : String
  download_url : String
  source : Option String
deriving Repr, DecidableEq

/-- The `UpdateState` union type (line 17 of the source). -/
inductive UpdateState where
  | checking
  | downloading
  | ready
  | error
  | none
deriving Repr, DecidableEq

/-- Toast kinds used by the component (`"info"` and `"error"`). -/
inductive ToastKind where
  | info
  | error
deriving Repr, DecidableEq

/-- The i18n `t` function, modelled as identity on translation keys
(keys are non-empty strings, which is all the component relies on). -/
def t (key : String) : String := key

/-- JavaScript `||` on strings: falsy (empty) left operand selects the
right operand. -/
def jsOr (a b : String) : String := if a = "" then b else a

/-- Full machine state: the hook state of the component and ref, plus the
observable history (toasts, console logs, `onClose` and relaunch
invocation counts, check invocations) and pending timers.  `stateLog`
records every value ever held by `updateState` (initial value included)
and `progressLog` every value ever held by `downloadProgress`. -/
structure MState where
  updateInfo : Option UpdateInfo
  isVisible : Bool
  isClosing : Bool
  updateState : UpdateState
  downloadProgress : Nat
  downloadStarted : Bool
  pendingCheck : Bool
  visibleTimers : List Nat
  closeTimers : List Nat
  closedCount : Nat
  checkCount : Nat
  toasts : List (String × ToastKind)
  warnLog : List String
  errorLog : List String
  relaunchCount : Nat
  stateLog : List UpdateState
  progressLog : List Nat
deriving Repr, DecidableEq

/-- `setUpdateState`, with the assignment recorded in `stateLog`. -/
def setUpdateState (s : MState) (v : UpdateState) : MState :=
  { s with updateState := v, stateLog := s.stateLog ++ [v] }

/-- `setDownloadProgress`, with the assignment recorded in `progressLog`. -/
def setDownloadProgress (s : MState) (v : Nat) : MState :=
  { s with downloadProgress := v, progressLog := s.progressLog ++ [v] }

/-- `showToast(msg, kind)` appends to the toast history. -/
def showToast (s : MState) (msg : String) (kind : ToastKind) : MState :=
  { s with toasts := s.toasts ++ [(msg, kind)] }

/-- Invoking the parent `onClose` callback. -/
def callOnClose (s : MState) : MState :=
  { s with closedCount := s.closedCount + 1 }

/-- `handleClose` (lines 97-101): set the closing flag, clear
visibility, and schedule `onClose` after the fixed 400 ms delay. -/
def handleClose (s : MState) : MState :=
  { s with isClosing := true
         , isVisible := false
         , closeTimers := s.closeTimers ++ [400] }

/-- Starting an `invoke("check_for_updates")` call (the await point of
`checkAndDownload`). -/
def startCheck (s : MState) : MState :=
  { s with pendingCheck := true, checkCount := s.checkCount + 1 }

/-- The continuation of `checkAndDownload` (lines 38-87) once the
`check_for_updates` call resolves, either with an `UpdateInfo` or by
throwing an error with a message.  The `try`/`catch` wraps the whole
body, so a thrown error is turned into the **error** state and an error
toast; nothing escapes. -/
def resolveCheck (tauri : Bool) (s : MState) (r : Except String UpdateInfo) :
    MState :=
  let s := { s with pendingCheck := false }
  match r with
  | Except.error e =>
      -- catch block (lines 78-86)
      let s := { s with errorLog := s.errorLog ++ [t ("Auto update failed: ") ++ e] }
      let s := setUpdateState s UpdateState.error
      showToast s (t ("update_notification.toast.failed") ++ ": " ++ e)
        ToastKind.error
  | Except.ok info =>
      if !info.has_update then
        -- line 42-45: no update, notify parent and return
        callOnClose s
      else
        let s := { s with updateInfo := some info }
        if !tauri then
          -- lines 49-54: not in Tauri, warn and notify parent
          let s := { s with warnLog :=
            s.warnLog ++ ["Auto update is only available in Tauri environment"] }
          callOnClose s
        else if s.downloadStarted then s
        else
          let s := { s with downloadStarted := true }
          let s := setUpdateState s UpdateState.downloading
          -- line 61: setTimeout(() => setIsVisible(true), 100)
          let s := { s with visibleTimers := s.visibleTimers ++ [100] }
          -- line 63: const update = null; updater removed by user request
          let update : Option Unit := Option.none
          match update with
          | Option.none =>
              let s := { s with warnLog :=
                s.warnLog ++ ["Native updater disabled or returned null"] }
              let s := showToast s
                (jsOr (t ("update_notification.toast.not_ready"))
                  ("Auto-update is disabled")) ToastKind.info
              handleClose s
          | Option.some _ =>
              -- lines 76-77 (dead: `update` is literally null)
              let s := setUpdateState s UpdateState.ready
              setDownloadProgress s 100

/-- Events that drive the component after mount. -/
inductive Event where
  | checkResult (r : Except String UpdateInfo)
  | fireVisible
  | fireClose
  | clickClose
  | clickRetry
  | clickRestart

/-- One event-driven step.  Timer-expiry events fire the oldest pending
timer of their kind; click events are no-ops unless the render makes the
corresponding button available (close in **error**/**ready**, retry in
**error**, restart in **ready**); a check resolution is a no-op unless a
check call is in flight. -/
def step (tauri : Bool) (s : MState) (e : Event) : MState :=
  match e with
  | Event.checkResult r =>
      if s.pendingCheck then resolveCheck tauri s r else s
  | Event.fireVisible =>
      match s.visibleTimers with
      | [] => s
      | _ :: rest => { s with visibleTimers := rest, isVisible := true }
  | Event.fireClose =>
      match s.closeTimers with
      | [] => s
      | _ :: rest => callOnClose { s with closeTimers := rest }
  | Event.clickClose =>
      if s.updateState = UpdateState.error ∨ s.updateState = UpdateState.ready
      then handleClose s else s
  | Event.clickRetry =>
      -- retry button onClick (lines 237-242)
      if s.updateState = UpdateState.error then
        startCheck
          (setDownloadProgress
            (setUpdateState { s with downloadStarted := false }
              UpdateState.checking) 0)
      else s
  | Event.clickRestart =>
      -- `handleRestart` invokes the relaunch primitive; failure is
      -- only logged (lines 89-95)
      if s.updateState = UpdateState.ready then
        { s with relaunchCount := s.relaunchCount + 1 }
      else s

/-- The hook initial values (lines 27-32). -/
def initialState : MState :=
  { updateInfo := Option.none
  , isVisible := false
  , isClosing := false
  , updateState := UpdateState.checking
  , downloadProgress := 0
  , downloadStarted := false
  , pendingCheck := false
  , visibleTimers := []
  , closeTimers := []
  , closedCount := 0
  , checkCount := 0
  , toasts := []
  , warnLog := []
  , errorLog := []
  , relaunchCount := 0
  , stateLog := [UpdateState.checking]
  , progressLog := [0] }

/-- Mounting the component: the `useEffect` invokes `checkAndDownload`,
which starts the `check_for_updates` call. -/
def mount : MState := startCheck initialState

/-- Run a sequence of events from the mounted component. -/
def run (tauri : Bool) (es : List Event) : MState :=
  es.foldl (step tauri) mount

/-- Run a sequence of events from an arbitrary state. -/
def runFrom (tauri : Bool) (s : MState) (es : List Event) : MState :=
  es.foldl (step tauri) s

/-- What the render function produces when it does not return `null`
(the structural facts the claims need: which buttons are rendered and
whether the entrance/exit animation class shows the card). -/
structure RenderView where
  visibleClass : Bool
  showCloseButton : Bool
  showProgressBar : Bool
  showRestartButton : Bool
  showRetryButton : Bool
deriving Repr, DecidableEq

/-- The render function (lines 103-262): returns `null` exactly when
`updateState` is `"none"`, otherwise the card with the close button in
**error**/**ready**, the progress bar in **downloading**, the restart
button in **ready** and the retry button in **error**. -/
def render (s : MState) : Option RenderView :=
  if s.updateState = UpdateState.none then Option.none
  else Option.some
    { visibleClass := s.isVisible && !s.isClosing
    , showCloseButton := decide (s.updateState = UpdateState.error) ||
        decide (s.updateState = UpdateState.ready)
    , showProgressBar := decide (s.updateState = UpdateState.downloading)
    , showRestartButton := decide (s.updateState = UpdateState.ready)
    , showRetryButton := decide (s.updateState = UpdateState.error) }

/-- Whether the render output includes the restart button. -/
def showsRestart (s : MState) : Bool :=
  match render s with
  | Option.some v => v.showRestartButton
  | Option.none => false

/-- A sample update payload with an update available. -/
def sampleUpdate : UpdateInfo :=
  { has_update := true
  , latest_version := "1.2.3"
  , current_version := "1.0.0"
  , download_url := "https://example.com/update"
  , source := Option.none }

/-- A sample payload reporting that no update is available. -/
def noUpdate : UpdateInfo :=
  { has_update := false
  , latest_version := "1.0.0"
  , current_version := "1.0.0"
  , download_url := ""
  , source := Option.none }

/-- Safety invariant: `"ready"` and `"none"` are never held by
`updateState`, `downloadProgress` only ever holds 0, and the relaunch
primitive is never invoked. -/
def Inv (s : MState) : Prop :=
  s.updateState ≠ UpdateState.ready ∧
  UpdateState.ready ∉ s.stateLog ∧
  s.updateState ≠ UpdateState.none ∧
  UpdateState.none ∉ s.stateLog ∧
  (∀ p ∈ s.progressLog, p = 0) ∧
  s.relaunchCount = 0

/-- Liveness invariant for the close callback: either `onClose` has
already fired, or an `onClose` timer is pending, or a check call is in
flight, or the render offers a close button (**error**/**ready**); and
once the download latch is set, an `onClose` invocation is pending or
done. -/
def CloseInv (s : MState) : Prop :=
  (1 ≤ s.closedCount ∨ s.closeTimers ≠ [] ∨ s.pendingCheck = true ∨
    s.updateState = UpdateState.error ∨
    s.updateState = UpdateState.ready) ∧
  (s.downloadStarted = true → 1 ≤ s.closedCount ∨ s.closeTimers ≠ [])

/-- A concrete reachable error state: the mounted widget after its
check call threw. -/
def errorState : MState :=
  run true [Event.checkResult (Except.error ("boom"))]

/-! ## Helper lemmas -/

/-- A quiescent state (no in-flight check, no pending timers, state
`"checking"`) is a fixpoint of `step`: no event changes it. -/
theorem step_quiescent (tauri : Bool) (s : MState)
    (h1 : s.pendingCheck = false) (h2 : s.visibleTimers = [])
    (h3 : s.closeTimers = []) (h4 : s.updateState = UpdateState.checking)
    (e : Event) : step tauri s e = s := by
  cases e <;> simp [step, h1, h2, h3, h4]

/-- A quiescent state is a fixpoint of any run. -/
theorem runFrom_quiescent (tauri : Bool) (s : MState)
    (h1 : s.pendingCheck = false) (h2 : s.visibleTimers = [])
    (h3 : s.closeTimers = []) (h4 : s.updateState = UpdateState.checking)
    (es : List Event) : runFrom tauri s es = s := by
  induction es with
  | nil => rfl
  | cons e es ih =>
      show runFrom tauri (step tauri s e) es = s
      rw [step_quiescent tauri s h1 h2 h3 h4 e, ih]

/-- Splitting a run at an intermediate point. -/
theorem run_append (tauri : Bool) (es es2 : List Event) :
    run tauri (es ++ es2) = runFrom tauri (run tauri es) es2 := by
  simp [run, runFrom, List.foldl_append]

/-- C1: for every check result with `has_update = true` when `isTauri()`
is true, the `updateState` of the widget becomes `"downloading"`, the
visibility flag is set after the fixed 100 ms entrance delay, exactly
one informational "not ready" toast is shown, and `handleClose` is
invoked (closing flag set, `onClose` scheduled at 400 ms). -/
theorem c1_native_update_flow (info : UpdateInfo)
    (h : info.has_update = true) :
    (step true mount (Event.checkResult (Except.ok info))).updateState =
      UpdateState.downloading ∧
    (step true mount (Event.checkResult (Except.ok info))).visibleTimers =
      [100] ∧
    (step true (step true mount (Event.checkResult (Except.ok info)))
      Event.fireVisible).isVisible = true ∧
    (step true mount (Event.checkResult (Except.ok info))).toasts =
      [(t ("update_notification.toast.not_ready"), ToastKind.info)] ∧
    (step true mount (Event.checkResult (Except.ok info))).isClosing = true ∧
    (step true mount (Event.checkResult (Except.ok info))).closeTimers =
      [400] := by
  simp [step, mount, startCheck, initialState, resolveCheck, h,
    setUpdateState, showToast, handleClose, callOnClose, jsOr, t]

/-- C4: if the `check_for_updates` call throws with message `m`, the
`updateState` of the widget becomes `"error"` and exactly one error-styled
toast whose text extends `m` is shown.  No exception propagates to the
parent: the caught continuation `resolveCheck` is a total function into
`MState`, so the run always continues. -/
theorem c4_check_error_toast (tauri : Bool) (m : String) :
    (run tauri [Event.checkResult (Except.error m)]).updateState =
      UpdateState.error ∧
    (run tauri [Event.checkResult (Except.error m)]).toasts =
      [(t ("update_notification.toast.failed") ++ ": " ++ m,
        ToastKind.error)] := by
  simp [run, step, mount, startCheck, initialState, resolveCheck,
    setUpdateState, showToast, t]

/-- C5: for every check result with `has_update = false`, the parent
close callback is invoked directly (exactly once), and the resulting
state is a fixpoint of every further event: `isVisible` stays false and
`updateState` only ever held the value `"checking"` (so
`"downloading"`, `"ready"` and `"error"` are never entered). -/
theorem c5_no_update_closes_invisible (tauri : Bool) (info : UpdateInfo)
    (h : info.has_update = false) (es : List Event) :
    (step tauri mount (Event.checkResult (Except.ok info))).closedCount = 1 ∧
    (step tauri mount (Event.checkResult (Except.ok info))).isVisible =
      false ∧
    (step tauri mount (Event.checkResult (Except.ok info))).stateLog =
      [UpdateState.checking] ∧
    runFrom tauri (step tauri mount (Event.checkResult (Except.ok info))) es =
      step tauri mount (Event.checkResult (Except.ok info)) := by
  have hs : step tauri mount (Event.checkResult (Except.ok info)) =
      callOnClose { mount with pendingCheck := false } := by
    simp [step, mount, startCheck, initialState, resolveCheck, h]
  refine ⟨?_, ?_, ?_, ?_⟩
  · rw [hs]; rfl
  · rw [hs]; rfl
  · rw [hs]; rfl
  · rw [hs]
    exact runFrom_quiescent tauri _ rfl rfl rfl rfl es

/-- C6: for every check result with `has_update = true` when `isTauri()`
is false, the widget invokes the parent close callback once after
logging a console-only warning, shows no toast, and the resulting state
is a fixpoint of every further event with `updateState` having only
ever held `"checking"` (so `"downloading"` is never entered). -/
theorem c6_non_native_closes (info : UpdateInfo)
    (h : info.has_update = true) (es : List Event) :
    (step false mount (Event.checkResult (Except.ok info))).closedCount = 1 ∧
    (step false mount (Event.checkResult (Except.ok info))).warnLog =
      ["Auto update is only available in Tauri environment"] ∧
    (step false mount (Event.checkResult (Except.ok info))).toasts = [] ∧
    (step false mount (Event.checkResult (Except.ok info))).stateLog =
      [UpdateState.checking] ∧
    runFrom false (step false mount (Event.checkResult (Except.ok info))) es =
      step false mount (Event.checkResult (Except.ok info)) := by
  have hs : step false mount (Event.checkResult (Except.ok info)) =
      callOnClose { mount with pendingCheck := false
                             , updateInfo := some info
                             , warnLog :=
        ["Auto update is only available in Tauri environment"] } := by
    simp [step, mount, startCheck, initialState, resolveCheck, h,
      callOnClose]
  refine ⟨?_, ?_, ?_, ?_, ?_⟩
  · rw [hs]; rfl
  · rw [hs]; rfl
  · rw [hs]; rfl
  · rw [hs]; rfl
  · rw [hs]
    exact runFrom_quiescent false _ rfl rfl rfl rfl es

/-- C7: from the `"error"` state, the retry action resets the
`downloadStarted` latch to false and `downloadProgress` to 0, sets
`updateState` back to `"checking"`, and starts a new
`check_for_updates` call, so the check count increases by one (a second
invocation when one check already completed). -/
theorem c7_retry_restarts (tauri : Bool) (s : MState)
    (h : s.updateState = UpdateState.error) :
    (step tauri s Event.clickRetry).downloadStarted = false ∧
    (step tauri s Event.clickRetry).downloadProgress = 0 ∧
    (step tauri s Event.clickRetry).updateState = UpdateState.checking ∧
    (step tauri s Event.clickRetry).pendingCheck = true ∧
    (step tauri s Event.clickRetry).checkCount = s.checkCount + 1 := by
  simp [step, h, startCheck, setDownloadProgress, setUpdateState]

/-- C8: the close action (available in `"ready"` and `"error"`) sets
`isClosing` and clears `isVisible` synchronously, schedules `onClose`
after the fixed 400 ms closing delay, does not invoke `onClose`
synchronously, and `onClose` fires exactly when that timer expires. -/
theorem c8_close_delayed_callback (tauri : Bool) (s : MState)
    (h : s.updateState = UpdateState.error ∨
         s.updateState = UpdateState.ready) :
    (step tauri s Event.clickClose).isClosing = true ∧
    (step tauri s Event.clickClose).isVisible = false ∧
    (step tauri s Event.clickClose).closeTimers = s.closeTimers ++ [400] ∧
    (step tauri s Event.clickClose).closedCount = s.closedCount ∧
    (s.closeTimers = [] →
      (step tauri (step tauri s Event.clickClose)
        Event.fireClose).closedCount = s.closedCount + 1) := by
  have hs : step tauri s Event.clickClose = handleClose s := by
    simp [step, h]
  rw [hs]
  refine ⟨rfl, rfl, rfl, rfl, ?_⟩
  intro hnil
  simp [step, handleClose, hnil, callOnClose]

theorem inv_mount : Inv mount := by
  refine ⟨?_, ?_, ?_, ?_, ?_, ?_⟩ <;> simp [mount, startCheck, initialState]

theorem inv_step (tauri : Bool) (s : MState) (e : Event) (h : Inv s) :
    Inv (step tauri s e) := by
  obtain ⟨h1, h2, h3, h4, h5, h6⟩ := h
  cases e with
  | checkResult r =>
      by_cases hp : s.pendingCheck = true
      · cases r with
        | error m =>
            refine ⟨?_, ?_, ?_, ?_, ?_, ?_⟩ <;>
              simp_all [step, resolveCheck, setUpdateState, showToast]
            intro p hmem
            exact h5 p hmem
        | ok info =>
            by_cases hu : info.has_update = true
            · by_cases ht : tauri = true
              · by_cases hd : s.downloadStarted = true
                · refine ⟨?_, ?_, ?_, ?_, ?_, ?_⟩ <;>
                    simp_all [step, resolveCheck, callOnClose]
                  intro p hmem
                  exact h5 p hmem
                · refine ⟨?_, ?_, ?_, ?_, ?_, ?_⟩ <;>
                    simp_all [step, resolveCheck, setUpdateState, showToast,
                      handleClose, jsOr, t]
                  intro p hmem
                  exact h5 p hmem
              · refine ⟨?_, ?_, ?_, ?_, ?_, ?_⟩ <;>
                  simp_all [step, resolveCheck, callOnClose]
                intro p hmem
                exact h5 p hmem
            · refine ⟨?_, ?_, ?_, ?_, ?_, ?_⟩ <;>
                simp_all [step, resolveCheck, callOnClose]
              intro p hmem
              exact h5 p hmem
      · simp only [step, if_neg hp]
        exact ⟨h1, h2, h3, h4, h5, h6⟩
  | fireVisible =>
      cases hv : s.visibleTimers with
      | nil => simp only [step, hv]; exact ⟨h1, h2, h3, h4, h5, h6⟩
      | cons a l =>
          refine ⟨?_, ?_, ?_, ?_, ?_, ?_⟩ <;> simp_all [step]
          intro p hmem
          exact h5 p hmem
  | fireClose =>
      cases hc : s.closeTimers with
      | nil => simp only [step, hc]; exact ⟨h1, h2, h3, h4, h5, h6⟩
      | cons a l =>
          refine ⟨?_, ?_, ?_, ?_, ?_, ?_⟩ <;> simp_all [step, callOnClose]
          intro p hmem
          exact h5 p hmem
  | clickClose =>
      by_cases hc : s.updateState = UpdateState.error ∨
          s.updateState = UpdateState.ready
      · refine ⟨?_, ?_, ?_, ?_, ?_, ?_⟩ <;> simp_all [step, handleClose]
        intro p hmem
        exact h5 p hmem
      · simp only [step, if_neg hc]
        exact ⟨h1, h2, h3, h4, h5, h6⟩
  | clickRetry =>
      by_cases hr : s.updateState = UpdateState.error
      · refine ⟨?_, ?_, ?_, ?_, ?_, ?_⟩ <;>
          simp_all [step, startCheck, setDownloadProgress, setUpdateState]
        intro p hmem
        rcases hmem with hmem | hmem
        · exact h5 p hmem
        · exact hmem
      · simp only [step, if_neg hr]
        exact ⟨h1, h2, h3, h4, h5, h6⟩
  | clickRestart =>
      have hr : ¬ s.updateState = UpdateState.ready := h1
      simp only [step, if_neg hr]
      exact ⟨h1, h2, h3, h4, h5, h6⟩

theorem inv_runFrom (tauri : Bool) (s : MState) (es : List Event)
    (h : Inv s) : Inv (runFrom tauri s es) := by
  induction es generalizing s with
  | nil => exact h
  | cons e es ih => exact ih (step tauri s e) (inv_step tauri s e h)

theorem inv_run (tauri : Bool) (es : List Event) : Inv (run tauri es) :=
  inv_runFrom tauri mount es inv_mount

theorem closeInv_mount : CloseInv mount := by
  constructor
  · right; right; left; rfl
  · intro hd; cases hd

theorem closeInv_step (tauri : Bool) (s : MState) (e : Event)
    (h : CloseInv s) : CloseInv (step tauri s e) := by
  obtain ⟨h1, h2⟩ := h
  cases e with
  | checkResult r =>
      by_cases hp : s.pendingCheck = true
      · cases r with
        | error m =>
            constructor
            · simp_all [step, resolveCheck, setUpdateState, showToast]
            · intro hd
              simp_all [step, resolveCheck, setUpdateState, showToast]
        | ok info =>
            by_cases hu : info.has_update = true
            · by_cases ht : tauri = true
              · by_cases hd : s.downloadStarted = true
                · have h2x := h2 hd
                  have hres : step tauri s (Event.checkResult
                      (Except.ok info)) =
                      { s with pendingCheck := false
                             , updateInfo := some info } := by
                    simp [step, hp, resolveCheck, hu, ht, hd]
                  rw [hres]
                  constructor
                  · rcases h2x with hcc | hct
                    · exact Or.inl hcc
                    · exact Or.inr (Or.inl hct)
                  · intro _
                    exact h2x
                · constructor
                  · simp_all [step, resolveCheck, setUpdateState, showToast,
                      handleClose, jsOr, t]
                  · intro _
                    simp_all [step, resolveCheck, setUpdateState, showToast,
                      handleClose, jsOr, t]
              · constructor
                · simp_all [step, resolveCheck, callOnClose]
                · intro _
                  simp_all [step, resolveCheck, callOnClose]
            · constructor
              · simp_all [step, resolveCheck, callOnClose]
              · intro _
                simp_all [step, resolveCheck, callOnClose]
      · simp only [step, if_neg hp]
        exact ⟨h1, h2⟩
  | fireVisible =>
      cases hv : s.visibleTimers with
      | nil => simp only [step, hv]; exact ⟨h1, h2⟩
      | cons a l =>
          constructor
          · simp_all [step]
          · intro hd
            simp_all [step]
  | fireClose =>
      cases hc : s.closeTimers with
      | nil => simp only [step, hc]; exact ⟨h1, h2⟩
      | cons a l =>
          constructor
          · simp [step, hc, callOnClose]
          · intro hd
            simp [step, hc, callOnClose]
  | clickClose =>
      by_cases hc : s.updateState = UpdateState.error ∨
          s.updateState = UpdateState.ready
      · constructor
        · simp [step, hc, handleClose]
        · intro hd
          simp [step, hc, handleClose]
      · simp only [step, if_neg hc]
        exact ⟨h1, h2⟩
  | clickRetry =>
      by_cases hr : s.updateState = UpdateState.error
      · constructor
        · simp [step, hr, startCheck, setDownloadProgress, setUpdateState]
        · intro hd
          simp_all [step, hr, startCheck, setDownloadProgress,
            setUpdateState]
      · simp only [step, if_neg hr]
        exact ⟨h1, h2⟩
  | clickRestart =>
      by_cases hr : s.updateState = UpdateState.ready
      · constructor
        · simp_all [step]
        · intro hd
          simp_all [step]
      · simp only [step, if_neg hr]
        exact ⟨h1, h2⟩

theorem closeInv_runFrom (tauri : Bool) (s : MState) (es : List Event)
    (h : CloseInv s) : CloseInv (runFrom tauri s es) := by
  induction es generalizing s with
  | nil => exact h
  | cons e es ih => exact ih (step tauri s e) (closeInv_step tauri s e h)

/-- From any state satisfying the liveness invariant, some continuation
invokes the parent close callback. -/
theorem closeInv_progress (tauri : Bool) (s : MState) (h : CloseInv s) :
    ∃ es, 1 ≤ (runFrom tauri s es).closedCount := by
  rcases h.1 with hc | ht | hp | he | hr
  · exact ⟨[], hc⟩
  · refine ⟨[Event.fireClose], ?_⟩
    cases hct : s.closeTimers with
    | nil => exact absurd hct ht
    | cons a l => simp [runFrom, step, hct, callOnClose]
  · refine ⟨[Event.checkResult (Except.ok noUpdate)], ?_⟩
    simp [runFrom, step, hp, resolveCheck, noUpdate, callOnClose]
  · refine ⟨[Event.clickClose, Event.fireClose], ?_⟩
    have hcc : step tauri s Event.clickClose = handleClose s := by
      simp [step, he]
    show 1 ≤ (step tauri (step tauri s Event.clickClose)
      Event.fireClose).closedCount
    rw [hcc]
    cases hct : s.closeTimers with
    | nil => simp [step, handleClose, hct, callOnClose]
    | cons a l => simp [step, handleClose, hct, callOnClose]
  · refine ⟨[Event.clickClose, Event.fireClose], ?_⟩
    have hcc : step tauri s Event.clickClose = handleClose s := by
      simp [step, hr]
    show 1 ≤ (step tauri (step tauri s Event.clickClose)
      Event.fireClose).closedCount
    rw [hcc]
    cases hct : s.closeTimers with
    | nil => simp [step, handleClose, hct, callOnClose]
    | cons a l => simp [step, handleClose, hct, callOnClose]

/-- C2 counterexample: the parent close callback is not invoked exactly
once per mount for every event sequence: after a failed check, clicking
close twice (the close button stays rendered because `updateState`
remains `"error"` while the widget animates out) schedules and fires
`onClose` twice. -/
theorem c2_counterexample :
    (run true [Event.checkResult (Except.error ("x")), Event.clickClose,
      Event.fireClose, Event.clickClose,
      Event.fireClose]).closedCount = 2 := by
  rfl

/-- C2 (amended): `onClose` is always eventually reachable — every
event sequence extends to one in which the parent close callback has
been invoked at least once — but it is not invoked exactly once:
repeated close clicks from the `"error"` state invoke it once per
click. -/
theorem c2_onclose_always_reachable (tauri : Bool) (es : List Event) :
    ∃ es2, 1 ≤ (run tauri (es ++ es2)).closedCount := by
  obtain ⟨es2, h2⟩ := closeInv_progress tauri (run tauri es)
    (closeInv_runFrom tauri mount es closeInv_mount)
  exact ⟨es2, by rw [run_append]; exact h2⟩

/-- C3 counterexample: on a check result with no update available the
widget invokes `onClose` but `updateState` stays `"checking"`; it never
ends in the terminal value `"none"`. -/
theorem c3_counterexample :
    (run true [Event.checkResult (Except.ok noUpdate)]).closedCount = 1 ∧
    (run true [Event.checkResult (Except.ok noUpdate)]).updateState =
      UpdateState.checking ∧
    (run true [Event.checkResult (Except.ok noUpdate)]).updateState ≠
      UpdateState.none := by
  refine ⟨rfl, rfl, ?_⟩
  intro hcontra
  cases hcontra

/-- C3 (amended): the render function returns `null` exactly when
`updateState = "none"`, but no execution ever assigns `"none"`: on the
no-update and download-unavailable paths the widget instead invokes the
parent close callback (which unmounts it) with `updateState` left at
`"checking"` respectively `"downloading"`. -/
theorem c3_render_null_iff_none :
    (∀ s : MState, render s = Option.none ↔
      s.updateState = UpdateState.none) ∧
    (∀ (tauri : Bool) (es : List Event),
      (run tauri es).updateState ≠ UpdateState.none ∧
      UpdateState.none ∉ (run tauri es).stateLog) := by
  constructor
  · intro s
    unfold render
    by_cases hn : s.updateState = UpdateState.none
    · simp [hn]
    · simp [hn]
  · intro tauri es
    obtain ⟨_, _, h3, h4, _, _⟩ := inv_run tauri es
    exact ⟨h3, h4⟩

/-- C9: with the native download value hard-coded to null, `"ready"` is
unreachable in every execution: `updateState` never equals `"ready"`
(nor ever held it), `downloadProgress` is never set to 100, the restart
button is never rendered, and the relaunch primitive is never
invoked. -/
theorem c9_ready_unreachable (tauri : Bool) (es : List Event) :
    (run tauri es).updateState ≠ UpdateState.ready ∧
    UpdateState.ready ∉ (run tauri es).stateLog ∧
    (100 : Nat) ∉ (run tauri es).progressLog ∧
    (run tauri es).relaunchCount = 0 ∧
    showsRestart (run tauri es) = false := by
  obtain ⟨h1, h2, _, _, h5, h6⟩ := inv_run tauri es
  refine ⟨h1, h2, ?_, h6, ?_⟩
  · intro hmem
    have h100 := h5 100 hmem
    omega
  · unfold showsRestart render
    by_cases hn : (run tauri es).updateState = UpdateState.none
    · simp [hn]
    · simp [hn, h1]

/-- C10: in every execution, every value ever held by
`downloadProgress` is an integer percentage in the range 0 to 100 and
is one of 0 or 100 (the only assignment sites are the initialiser 0,
the dead completion site 100, and the retry reset 0). -/
theorem c10_progress_zero_or_hundred (tauri : Bool) (es : List Event)
    (p : Nat) (hp : p ∈ (run tauri es).progressLog) :
    p ≤ 100 ∧ (p = 0 ∨ p = 100) := by
  have h0 := (inv_run tauri es).2.2.2.2.1 p hp
  subst h0
  exact ⟨by omega, Or.inl rfl⟩

/-- Witness for C1 at the concrete payload `sampleUpdate`. -/
theorem c1_witness :
    sampleUpdate.has_update = true ∧
    ((step true mount (Event.checkResult (Except.ok sampleUpdate))).updateState =
      UpdateState.downloading ∧
    (step true mount (Event.checkResult (Except.ok sampleUpdate))).visibleTimers =
      [100] ∧
    (step true (step true mount (Event.checkResult (Except.ok sampleUpdate)))
      Event.fireVisible).isVisible = true ∧
    (step true mount (Event.checkResult (Except.ok sampleUpdate))).toasts =
      [(t ("update_notification.toast.not_ready"), ToastKind.info)] ∧
    (step true mount (Event.checkResult (Except.ok sampleUpdate))).isClosing = true ∧
    (step true mount (Event.checkResult (Except.ok sampleUpdate))).closeTimers =
      [400]) :=
  ⟨rfl, c1_native_update_flow sampleUpdate rfl⟩

/-- Witness for C5 at the concrete payload `noUpdate`. -/
theorem c5_witness :
    noUpdate.has_update = false ∧
    ((step true mount (Event.checkResult (Except.ok noUpdate))).closedCount = 1 ∧
    (step true mount (Event.checkResult (Except.ok noUpdate))).isVisible =
      false ∧
    (step true mount (Event.checkResult (Except.ok noUpdate))).stateLog =
      [UpdateState.checking] ∧
    runFrom true (step true mount (Event.checkResult (Except.ok noUpdate)))
      [Event.clickRetry] =
      step true mount (Event.checkResult (Except.ok noUpdate))) :=
  ⟨rfl, c5_no_update_closes_invisible true noUpdate rfl [Event.clickRetry]⟩

/-- Witness for C6 at the concrete payload `sampleUpdate`. -/
theorem c6_witness :
    sampleUpdate.has_update = true ∧
    ((step false mount (Event.checkResult (Except.ok sampleUpdate))).closedCount = 1 ∧
    (step false mount (Event.checkResult (Except.ok sampleUpdate))).warnLog =
      ["Auto update is only available in Tauri environment"] ∧
    (step false mount (Event.checkResult (Except.ok sampleUpdate))).toasts = [] ∧
    (step false mount (Event.checkResult (Except.ok sampleUpdate))).stateLog =
      [UpdateState.checking] ∧
    runFrom false (step false mount (Event.checkResult (Except.ok sampleUpdate)))
      [Event.clickClose] =
      step false mount (Event.checkResult (Except.ok sampleUpdate))) :=
  ⟨rfl, c6_non_native_closes sampleUpdate rfl [Event.clickClose]⟩

/-- Witness for C7 at the concrete reachable error state: the check
call is invoked a second time (check count goes from 1 to 2). -/
theorem c7_witness :
    errorState.updateState = UpdateState.error ∧
    ((step true errorState Event.clickRetry).downloadStarted = false ∧
    (step true errorState Event.clickRetry).downloadProgress = 0 ∧
    (step true errorState Event.clickRetry).updateState =
      UpdateState.checking ∧
    (step true errorState Event.clickRetry).pendingCheck = true ∧
    (step true errorState Event.clickRetry).checkCount =
      errorState.checkCount + 1) :=
  ⟨rfl, c7_retry_restarts true errorState rfl⟩

/-- Witness for C8 at the concrete reachable error state. -/
theorem c8_witness :
    (errorState.updateState = UpdateState.error ∨
     errorState.updateState = UpdateState.ready) ∧
    ((step true errorState Event.clickClose).isClosing = true ∧
    (step true errorState Event.clickClose).isVisible = false ∧
    (step true errorState Event.clickClose).closeTimers =
      errorState.closeTimers ++ [400] ∧
    (step true errorState Event.clickClose).closedCount =
      errorState.closedCount ∧
    (errorState.closeTimers = [] →
      (step true (step true errorState Event.clickClose)
        Event.fireClose).closedCount = errorState.closedCount + 1)) :=
  ⟨Or.inl rfl, c8_close_delayed_callback true errorState (Or.inl rfl)⟩

/-- Witness for C10 at the freshly mounted widget, whose progress log
holds the initial value 0. -/
theorem c10_witness :
    (0 : Nat) ∈ (run true []).progressLog ∧
    ((0 : Nat) ≤ 100 ∧ ((0 : Nat) = 0 ∨ (0 : Nat) = 100)) :=
  ⟨by decide, c10_progress_zero_or_hundred true [] 0 (by decide)⟩

end UpdateNotification
